import Mathlib

/-!
Verification of the example-construction pipeline of `mptb` (BERT
pretraining dataset code): `src/mptb/utils.py` and
`src/mptb/pretrain_dataset.py`, shallowly embedded in Lean 4.

Token ids are modelled as `Nat`.  Python's stochastic choices
(`random()`, `randint`, `shuffle`, `np.random.geometric`) are threaded
through the definitions as explicit parameters, so every definition is a
deterministic function of the source's inputs plus the recorded random
outcomes.  In-place list mutation becomes functional update; a raised
exception becomes `none` of an `Option` (or a dedicated error value).
-/

namespace Mptb

/-- Reserved token ids cached by both dataset classes
(`pad_id`, `cls_id`, `sep_id`, `mask_id`). -/
structure BertIds where
  pad : Nat
  cls : Nat
  sep : Nat
  mask : Nat
deriving DecidableEq, Repr

/-- Loop body of `utils.truncate_seq_pair`:

```python
while True:
    total_length = len(tokens_a) + len(tokens_b)
    if total_length <= max_length:
        break
    if len(tokens_a) > len(tokens_b):
        tokens_a.pop()
    else:
        tokens_b.pop()
```

written with explicit fuel; every iteration shortens `tokens_a ++ tokens_b`
by one element, so fuel `len(tokens_a) + len(tokens_b)` always suffices. -/
def truncateGo : Nat → List Nat → List Nat → Nat → List Nat × List Nat
  | 0, a, b, _ => (a, b)
  | fuel + 1, a, b, L =>
      if a.length + b.length ≤ L then (a, b)
      else if b.length < a.length then truncateGo fuel a.dropLast b L
      else truncateGo fuel a b.dropLast L

/-- Model of `utils.truncate_seq_pair(tokens_a, tokens_b, max_length)`;
the in-place mutation of the two lists becomes a returned pair. -/
def truncate_seq_pair (tokens_a tokens_b : List Nat) (max_length : Nat) :
    List Nat × List Nat :=
  truncateGo (tokens_a.length + tokens_b.length) tokens_a tokens_b max_length

/-- Model of `mask_prediction = int(round(len(tokens) * masked_lm_prob))`
with the default `masked_lm_prob = 0.15`.  Python's `round` rounds halves
to even; `n * 0.15` in IEEE doubles lands exactly on the tie value
`3n/20` whenever `3n % 20 = 10` (the representation error of the literal
`0.15` stays below half an ulp of the product), so this exact rational
computation agrees with the source's float computation for every `n`. -/
def maskPrediction (n : Nat) : Nat :=
  if 3 * n % 20 < 10 then 3 * n / 20
  else if 10 < 3 * n % 20 then 3 * n / 20 + 1
  else if (3 * n / 20) % 2 = 0 then 3 * n / 20 else 3 * n / 20 + 1

/-- Outcome of the 80/10/10 coin cascade at one selected position:
`random() < 0.8` replaces the token with `[MASK]`; else `random() < 0.5`
replaces it with `get_random_token_id()` (whose value is recorded in the
constructor); else the token is left unchanged. -/
inductive MaskDecision where
  | maskTok
  | randTok (id : Nat)
  | keep
deriving DecidableEq, Repr

/-- Apply one masking decision at one position (`tokens[pos] = ...`). -/
def applyDecisionAt (B : BertIds) (tokens : List Nat) (pos : Nat) :
    MaskDecision → List Nat
  | .maskTok => tokens.set pos B.mask
  | .randTok r => tokens.set pos r
  | .keep => tokens

/-- Per-token masking loop of `PretrainDataset.convert_example_to_features`:
`for pos in mask_candidate_pos[:mask_prediction]:` with one coin-cascade
outcome consumed per position. -/
def applyDecisions (B : BertIds) : List Nat → List Nat → List MaskDecision → List Nat
  | tokens, [], _ => tokens
  | tokens, pos :: rest, ds =>
      applyDecisions B (applyDecisionAt B tokens pos (ds.headD .keep)) rest ds.tail

/-- Model of `mask_candidate_pos = [i for i, token in enumerate(tokens)
if token != self.cls_id and token != self.sep_id]`. -/
def mask_candidate_pos (B : BertIds) (tokens : List Nat) : List Nat :=
  (tokens.enum.filter fun p => (p.2 != B.cls) && (p.2 != B.sep)).map Prod.fst

/-- Random outcomes consumed by one call of
`PretrainDataset.convert_example_to_features`: the short-sequence coin
`random() < short_seq_prob`, the `randint(2, target_max_pos)` value, the
reordering performed by `shuffle(mask_candidate_pos)`, and the coin
cascade per selected position. -/
structure Rand2 where
  shortSeq : Bool
  shortTarget : Nat
  shuffleCands : List Nat → List Nat
  decs : List MaskDecision

/-- Model of `target_max_pos = max_pos - 3 if tokens_b else max_pos - 2`,
possibly shrunk to `randint(2, target_max_pos)` when the short-sequence
coin fires. -/
def effTarget2 (r : Rand2) (tokens_b : List Nat) (max_pos : Nat) : Nat :=
  let t := if tokens_b ≠ [] then max_pos - 3 else max_pos - 2
  if r.shortSeq then r.shortTarget else t

/-- Value of `tokens_a_ids` after truncation and
`tokens_a_ids.insert(0, self.cls_id)`. -/
def twoSegA (B : BertIds) (r : Rand2) (a b : List Nat) (max_pos : Nat) : List Nat :=
  B.cls :: (truncate_seq_pair a b (effTarget2 r b max_pos)).1

/-- Value of `tokens_b_ids` after truncation,
`tokens_b_ids.append(self.sep_id)`, and the subsequent
`if len(tokens_b_ids) != 0: tokens_b_ids.append(self.sep_id)` (whose
condition is always true, because a SEP was just appended). -/
def twoSegB (B : BertIds) (r : Rand2) (a b : List Nat) (max_pos : Nat) : List Nat :=
  let t := (truncate_seq_pair a b (effTarget2 r b max_pos)).2 ++ [B.sep]
  if t ≠ [] then t ++ [B.sep] else []

/-- Value of `tokens = copy(tokens_a_ids); tokens.extend(copy(tokens_b_ids))`
before masking. -/
def twoSegTokens (B : BertIds) (r : Rand2) (a b : List Nat) (max_pos : Nat) : List Nat :=
  twoSegA B r a b max_pos ++ twoSegB B r a b max_pos

/-- Positions selected for possible substitution:
`shuffle(mask_candidate_pos)` followed by
`mask_candidate_pos[:mask_prediction]`. -/
def twoSegSelected (B : BertIds) (r : Rand2) (a b : List Nat) (max_pos : Nat) : List Nat :=
  (r.shuffleCands (mask_candidate_pos B (twoSegTokens B r a b max_pos))).take
    (maskPrediction (twoSegTokens B r a b max_pos).length)

/-- Model of `PretrainDataset.convert_example_to_features`, returning
`(input_ids, segment_ids, input_mask, is_next_label, label_ids)`. -/
def convert_example_to_features (B : BertIds) (r : Rand2) (a b : List Nat)
    (is_next_label : Nat) (max_pos : Nat) :
    List Nat × List Nat × List Nat × Nat × List Nat :=
  let tokens_a_ids := twoSegA B r a b max_pos
  let tokens_b_ids := twoSegB B r a b max_pos
  let segment_ids := List.replicate tokens_a_ids.length 0 ++
    List.replicate tokens_b_ids.length 1
  let tokens := applyDecisions B (tokens_a_ids ++ tokens_b_ids)
    (twoSegSelected B r a b max_pos) r.decs
  let input_ids := tokens
  let input_mask := List.replicate input_ids.length 1
  let label_ids := tokens_a_ids ++ tokens_b_ids
  let num_zero_pad := max_pos - input_ids.length
  (input_ids ++ List.replicate num_zero_pad B.pad,
   segment_ids ++ List.replicate num_zero_pad 0,
   input_mask ++ List.replicate num_zero_pad 0,
   is_next_label,
   label_ids ++ List.replicate num_zero_pad B.pad)

/-- Random outcomes consumed by one call of
`OneSegmentDataset.convert_example_to_features`: the short-sequence coin
and its `randint` value, the `np.random.geometric(0.2)` draw, the
reordering performed by `shuffle(mask_candidate_words)`, and the coin
cascade per touched position. -/
structure Rand1 where
  shortSeq : Bool
  shortTarget : Nat
  geoDraw : Nat
  shuffleChunks : List (List Nat) → List (List Nat)
  decs : List MaskDecision

/-- Model of `target_max_pos = max_pos - 2`, possibly shrunk to
`randint(2, target_max_pos)`. -/
def effTarget1 (r : Rand1) (max_pos : Nat) : Nat :=
  if r.shortSeq then r.shortTarget else max_pos - 2

/-- Model of `mask_length = np.random.geometric(0.2)` followed by the two
clamping statements `if mask_length > self.max_words_length: ...` and
`if mask_length > mask_prediction: ...`. -/
def clampedMaskLength (geoDraw max_words_length mask_prediction : Nat) : Nat :=
  let m := geoDraw
  let m := if max_words_length < m then max_words_length else m
  if mask_prediction < m then mask_prediction else m

/-- Helper for `np.array_split`: slice a list into pieces of the given
sizes. -/
def takeDrops (l : List Nat) : List Nat → List (List Nat)
  | [] => []
  | s :: ss => l.take s :: takeDrops (l.drop s) ss

/-- Model of `np.array_split(l, k)` for `k ≥ 1`: `l.length % k` sections
of size `l.length / k + 1` followed by sections of size `l.length / k`. -/
def arraySplit (l : List Nat) (k : Nat) : List (List Nat) :=
  takeDrops l ((List.range k).map fun i =>
    if i < l.length % k then l.length / k + 1 else l.length / k)

/-- Inner span-masking loop `for pos in words:` — increments `masked`,
applies the coin cascade at `pos`, and breaks as soon as
`masked == mask_prediction`.  Returns the updated tokens, the unconsumed
decisions, and the counter. -/
def spanMaskInner (B : BertIds) (mp : Nat) :
    List Nat → List MaskDecision → List Nat → Nat →
      List Nat × List MaskDecision × Nat
  | [], ds, tokens, masked => (tokens, ds, masked)
  | pos :: rest, ds, tokens, masked =>
      let masked' := masked + 1
      let tokens' := applyDecisionAt B tokens pos (ds.headD .keep)
      if masked' = mp then (tokens', ds.tail, masked')
      else spanMaskInner B mp rest ds.tail tokens' masked'

/-- Outer span-masking loop `for words in mask_candidate_words:` — runs
the inner loop and breaks as soon as `masked == mask_prediction`.
Returns the updated tokens and the final counter. -/
def spanMaskOuter (B : BertIds) (mp : Nat) :
    List (List Nat) → List MaskDecision → List Nat → Nat → List Nat × Nat
  | [], _, tokens, masked => (tokens, masked)
  | w :: ws, ds, tokens, masked =>
      let r := spanMaskInner B mp w ds tokens masked
      if r.2.2 = mp then (r.1, r.2.2)
      else spanMaskOuter B mp ws r.2.1 r.1 r.2.2

/-- Value of `tokens_a_ids` in the one-segment encoder:
`[cls_id] + truncated(tokens_a) + [sep_id]`. -/
def oneSegTokensA (B : BertIds) (r : Rand1) (tokens_a : List Nat) (max_pos : Nat) :
    List Nat :=
  (B.cls :: (truncate_seq_pair tokens_a [] (effTarget1 r max_pos)).1) ++ [B.sep]

/-- Masking phase of `OneSegmentDataset.convert_example_to_features`:
`none` models the `ValueError` raised by `np.array_split` when the
section count `int(len(mask_candidate_pos)/mask_length)` is zero.
(Python computes that count by float division then `int`, which agrees
with natural-number division here.) -/
def oneSegMaskedTokens (B : BertIds) (r : Rand1) (tokens_a : List Nat)
    (max_pos max_words_length : Nat) : Option (List Nat) :=
  let tokens := oneSegTokensA B r tokens_a max_pos
  let mask_prediction := maskPrediction tokens.length
  let cand := mask_candidate_pos B tokens
  let mask_length := clampedMaskLength r.geoDraw max_words_length mask_prediction
  if 0 < mask_length then
    let sections := cand.length / mask_length
    if sections = 0 then none
    else some (spanMaskOuter B mask_prediction
      (r.shuffleChunks (arraySplit cand sections)) r.decs tokens 0).1
  else some tokens

/-- Model of `OneSegmentDataset.convert_example_to_features`, returning
`some [input_ids, [], [], [], label_ids]` (note the literally empty
second, third and fourth components of the source's return statement),
or `none` on the degenerate `np.array_split` call. -/
def convert_example_to_features_one (B : BertIds) (r : Rand1) (tokens_a : List Nat)
    (max_pos max_words_length : Nat) :
    Option (List Nat × List Nat × List Nat × List Nat × List Nat) :=
  (oneSegMaskedTokens B r tokens_a max_pos max_words_length).map fun input_ids =>
    let label_ids := oneSegTokensA B r tokens_a max_pos
    let num_zero_pad := max_pos - input_ids.length
    (input_ids ++ List.replicate num_zero_pad B.pad, [], [], [],
     label_ids ++ List.replicate num_zero_pad B.pad)

/-- Final value of the `masked` counter of the span-masking loops: how
many positions `OneSegmentDataset.convert_example_to_features` selected
for possible substitution (it is `0` when the loops are skipped or the
degenerate split raises). -/
def oneSegMaskedCount (B : BertIds) (r : Rand1) (tokens_a : List Nat)
    (max_pos max_words_length : Nat) : Nat :=
  let tokens := oneSegTokensA B r tokens_a max_pos
  let mask_prediction := maskPrediction tokens.length
  let cand := mask_candidate_pos B tokens
  let mask_length := clampedMaskLength r.geoDraw max_words_length mask_prediction
  if 0 < mask_length then
    let sections := cand.length / mask_length
    if sections = 0 then 0
    else (spanMaskOuter B mask_prediction
      (r.shuffleChunks (arraySplit cand sections)) r.decs tokens 0).2
  else 0

/-- One corpus input line after `strip()`: `none` models a blank line,
`some ts` a non-blank line whose tokenization converts to ids `ts`. -/
abbrev Line := Option (List Nat)

/-- Mutable state of the in-memory corpus loader of `PretrainDataset`:
`all_documents`, the open `doc`, `sample_to_doc` (entries
`(doc_id, line)`), and `corpus_lines`. -/
structure LoadState where
  all_documents : List (List (List Nat))
  doc : List (List Nat)
  sample_to_doc : List (Nat × Nat)
  corpus_lines : Nat
deriving DecidableEq, Repr

def initLoadState : LoadState := ⟨[], [], [], 0⟩

/-- Model of `PretrainDataset._load_text` (in-memory branch): a blank
line closes a non-empty document and pops the dangling last sample; a
non-blank line records a sample locator, appends the sentence, and
increments `corpus_lines`. -/
def load_text (st : LoadState) (line : Line) : LoadState :=
  match line with
  | none =>
      if st.doc ≠ [] then
        ⟨st.all_documents ++ [st.doc], [], st.sample_to_doc.dropLast, st.corpus_lines⟩
      else st
  | some ts =>
      ⟨st.all_documents, st.doc ++ [ts],
       st.sample_to_doc ++ [(st.all_documents.length, st.doc.length)],
       st.corpus_lines + 1⟩

def loadAll (lines : List Line) : LoadState :=
  lines.foldl load_text initLoadState

/-- End-of-file fix of `PretrainDataset.__init__`:
`if len(doc) > 0: all_documents.append(doc); sample_to_doc.pop()`. -/
def eofFix (st : LoadState) : LoadState :=
  if st.doc ≠ [] then
    ⟨st.all_documents ++ [st.doc], [], st.sample_to_doc.dropLast, st.corpus_lines⟩
  else st

/-- The loader state after `PretrainDataset.__init__` reads all lines. -/
def loadDataset (lines : List Line) : LoadState := eofFix (loadAll lines)

/-- `self.num_docs = len(self.all_documents)`. -/
def numDocs (st : LoadState) : Nat := st.all_documents.length

/-- Model of `PretrainDataset.__len__`:
`corpus_lines - num_docs - 1`, a Python int (possibly negative). -/
def datasetLen (st : LoadState) : Int :=
  (st.corpus_lines : Int) - numDocs st - 1

/-- Document check of `PretrainDataset.__init__`:
`if len(self.all_documents) is 0: raise ValueError(...)`; `none` models
the raised error. -/
def pretrainInit (lines : List Line) : Option LoadState :=
  let st := loadDataset lines
  if numDocs st = 0 then none else some st

/-- Outcome of `PretrainDataset.get_corpus_line`: a sentence pair, the
failed `assert item < self.corpus_lines`, or an out-of-range list
subscript (`IndexError`). -/
inductive CorpusLineResult where
  | ok (t1 t2 : List Nat)
  | assertError
  | indexError
deriving DecidableEq, Repr

/-- Model of `PretrainDataset.get_corpus_line` (in-memory branch): the
guard is `assert item < self.corpus_lines`, then `sample_to_doc[item]`
and the two document lookups
`all_documents[doc_id][line]` / `all_documents[doc_id][line + 1]`. -/
def get_corpus_line (st : LoadState) (item : Nat) : CorpusLineResult :=
  if item < st.corpus_lines then
    match st.sample_to_doc.get? item with
    | none => .indexError
    | some s =>
        match (st.all_documents.getD s.1 []).get? s.2,
              (st.all_documents.getD s.1 []).get? (s.2 + 1) with
        | some t1, some t2 => .ok t1 t2
        | _, _ => .indexError
  else .assertError

/-- Model of `PretrainDataset.get_random_line` (in-memory branch).
`draws` records the ten
`(randrange(len(all_documents)), randrange(len(rand_doc)))` outcomes;
`current_doc` and `current_random_doc` are the instance fields, neither
of which is modified anywhere on this branch.  The loop keeps the last
drawn `line` and breaks when `current_random_doc != current_doc`. -/
def get_random_line (all_documents : List (List (List Nat)))
    (current_doc current_random_doc : Nat) :
    List (Nat × Nat) → List Nat → List Nat
  | [], line => line
  | d :: rest, _ =>
      let line := (all_documents.getD d.1 []).getD d.2 []
      if current_random_doc ≠ current_doc then line
      else get_random_line all_documents current_doc current_random_doc rest line

/-- Duplicate removal of `list(dict.fromkeys(...))`: keeps the first
occurrence of each element.  Fuel `l.length` always suffices because the
recursive call filters a strictly shorter tail. -/
def dedupFirstGo : Nat → List Nat → List Nat
  | 0, _ => []
  | _ + 1, [] => []
  | fuel + 1, x :: xs => x :: dedupFirstGo fuel (xs.filter fun y => y != x)

def dedupFirst (l : List Nat) : List Nat := dedupFirstGo l.length l

/-- Sidecar reload of `OneSegmentDataset.__init__`:
`self.indices = list(dict.fromkeys(last_indices + self.indices))`, where
`self.indices` was freshly shuffled from `range(len(all_documents))`. -/
def reloadIndices (last_indices fresh : List Nat) : List Nat :=
  dedupFirst (last_indices ++ fresh)

/-- Model of `PreTensorPretrainDataset.__init__` over the pickled record
stream: `none` models the `ValueError` on `length < 0` or an `EOFError`
while skipping; otherwise the remaining stream is returned together with
the stored `self.length`.  The source's statement
`self.length - last_step` computes a value and discards it, so the
stored length is `length` unchanged. -/
def preTensorInit {α : Type} (records : List α) (length last_step : Int) :
    Option (List α × Int) :=
  if length < 0 then none
  else if 0 < last_step then
    if last_step.toNat ≤ records.length then
      some (records.drop last_step.toNat, length)
    else none
  else some (records, length)

/-- Model of `PreTensorPretrainDataset.__len__`. -/
def preTensorLen {α : Type} (st : List α × Int) : Int := st.2

/-- Concrete reserved ids used by the witness instances:
PAD = 0, CLS = 1, SEP = 2, MASK = 3. -/
def Bex : BertIds := ⟨0, 1, 2, 3⟩

/-- Concrete two-segment random outcomes: no short-sequence shrink,
identity shuffle, no substitutions (all coins land on "leave
unchanged"). -/
def r2ex : Rand2 := ⟨false, 0, fun l => l, []⟩

/-- Concrete one-segment random outcomes: no shrink, geometric draw 1,
identity chunk shuffle, no substitutions. -/
def r1ex : Rand1 := ⟨false, 0, 1, fun l => l, []⟩

/-- Concrete one-segment random outcomes with geometric draw 5. -/
def r1geo5 : Rand1 := ⟨false, 0, 5, fun l => l, []⟩

/-! ## Helper lemmas -/

theorem truncateGo_le (L : Nat) :
    ∀ (fuel : Nat) (a b : List Nat), a.length + b.length ≤ fuel + L →
      (truncateGo fuel a b L).1.length + (truncateGo fuel a b L).2.length ≤ L
  | 0, a, b, h => by
      rw [truncateGo]
      simpa using h
  | fuel + 1, a, b, h => by
      rw [truncateGo]
      by_cases hle : a.length + b.length ≤ L
      · rw [if_pos hle]
        exact hle
      · rw [if_neg hle]
        by_cases hba : b.length < a.length
        · rw [if_pos hba]
          exact truncateGo_le L fuel a.dropLast b
            (by simp only [List.length_dropLast]; omega)
        · rw [if_neg hba]
          exact truncateGo_le L fuel a b.dropLast
            (by simp only [List.length_dropLast]; omega)

theorem truncate_seq_pair_le (a b : List Nat) (L : Nat) :
    (truncate_seq_pair a b L).1.length + (truncate_seq_pair a b L).2.length ≤ L :=
  truncateGo_le L (a.length + b.length) a b (by omega)

theorem truncateGo_noop (a b : List Nat) (L : Nat)
    (h : a.length + b.length ≤ L) :
    ∀ fuel, truncateGo fuel a b L = (a, b)
  | 0 => rfl
  | fuel + 1 => by
      rw [truncateGo, if_pos h]

theorem truncate_seq_pair_noop (a b : List Nat) (L : Nat)
    (h : a.length + b.length ≤ L) : truncate_seq_pair a b L = (a, b) :=
  truncateGo_noop a b L h _

theorem truncateGo_nil_right (L : Nat) :
    ∀ (fuel : Nat) (a : List Nat), a.length ≤ fuel →
      truncateGo fuel a [] L = (a.take L, [])
  | 0, a, h => by
      have ha : a = [] := List.length_eq_zero.mp (by omega)
      subst ha
      rw [truncateGo]
      simp
  | fuel + 1, a, h => by
      rw [truncateGo]
      by_cases hle : a.length + ([] : List Nat).length ≤ L
      · rw [if_pos hle]
        simp only [List.length_nil, Nat.add_zero] at hle
        rw [List.take_of_length_le hle]
      · rw [if_neg hle]
        simp only [List.length_nil, Nat.add_zero] at hle
        have hpos : 0 < a.length := by omega
        rw [if_pos (by simpa using hpos)]
        rw [truncateGo_nil_right L fuel a.dropLast
          (by simp only [List.length_dropLast]; omega)]
        rw [List.dropLast_eq_take, List.take_take]
        congr 2
        omega

theorem truncate_seq_pair_nil_right (a : List Nat) (L : Nat) :
    truncate_seq_pair a [] L = (a.take L, []) :=
  truncateGo_nil_right L _ a (by simp)

theorem applyDecisionAt_length (B : BertIds) (tokens : List Nat) (pos : Nat)
    (d : MaskDecision) : (applyDecisionAt B tokens pos d).length = tokens.length := by
  cases d <;> simp [applyDecisionAt]

theorem applyDecisions_length (B : BertIds) :
    ∀ (sel : List Nat) (tokens : List Nat) (ds : List MaskDecision),
      (applyDecisions B tokens sel ds).length = tokens.length
  | [], tokens, ds => rfl
  | pos :: rest, tokens, ds => by
      rw [applyDecisions, applyDecisions_length B rest, applyDecisionAt_length]

theorem twoSegA_length (B : BertIds) (r : Rand2) (a b : List Nat) (max_pos : Nat) :
    (twoSegA B r a b max_pos).length =
      (truncate_seq_pair a b (effTarget2 r b max_pos)).1.length + 1 := by
  simp [twoSegA]

theorem twoSegB_eq (B : BertIds) (r : Rand2) (a b : List Nat) (max_pos : Nat) :
    twoSegB B r a b max_pos =
      (truncate_seq_pair a b (effTarget2 r b max_pos)).2 ++ [B.sep, B.sep] := by
  simp [twoSegB]

theorem twoSegB_length (B : BertIds) (r : Rand2) (a b : List Nat) (max_pos : Nat) :
    (twoSegB B r a b max_pos).length =
      (truncate_seq_pair a b (effTarget2 r b max_pos)).2.length + 2 := by
  rw [twoSegB_eq]
  simp

theorem twoSegTokens_length_le (B : BertIds) (r : Rand2) (a b : List Nat)
    (max_pos : Nat) (h : effTarget2 r b max_pos + 3 ≤ max_pos) :
    (twoSegTokens B r a b max_pos).length ≤ max_pos := by
  have hle := truncate_seq_pair_le a b (effTarget2 r b max_pos)
  simp only [twoSegTokens, List.length_append, twoSegA_length, twoSegB_length]
  omega

theorem spanMaskInner_counter_le (B : BertIds) (mp : Nat) :
    ∀ (w : List Nat) (ds : List MaskDecision) (tokens : List Nat) (masked : Nat),
      masked < mp → (spanMaskInner B mp w ds tokens masked).2.2 ≤ mp
  | [], ds, tokens, masked, h => Nat.le_of_lt h
  | pos :: rest, ds, tokens, masked, h => by
      rw [spanMaskInner]
      by_cases he : masked + 1 = mp
      · rw [if_pos he]
        exact Nat.le_of_eq he
      · rw [if_neg he]
        exact spanMaskInner_counter_le B mp rest ds.tail _ (masked + 1)
          (by omega)

theorem spanMaskOuter_counter_le (B : BertIds) (mp : Nat) :
    ∀ (ws : List (List Nat)) (ds : List MaskDecision) (tokens : List Nat)
      (masked : Nat), masked < mp → (spanMaskOuter B mp ws ds tokens masked).2 ≤ mp
  | [], ds, tokens, masked, h => Nat.le_of_lt h
  | w :: ws, ds, tokens, masked, h => by
      rw [spanMaskOuter]
      have hin := spanMaskInner_counter_le B mp w ds tokens masked h
      by_cases he : (spanMaskInner B mp w ds tokens masked).2.2 = mp
      · rw [if_pos he]
        exact Nat.le_of_eq he
      · rw [if_neg he]
        exact spanMaskOuter_counter_le B mp ws _ _ _ (by omega)

theorem clampedMaskLength_eq_min (g mwl mp : Nat) :
    clampedMaskLength g mwl mp = min mp (min mwl g) := by
  rw [clampedMaskLength]
  by_cases h1 : mwl < g
  · simp only [if_pos h1]
    by_cases h2 : mp < mwl
    · simp only [if_pos h2]
      omega
    · simp only [if_neg h2]
      omega
  · simp only [if_neg h1]
    by_cases h2 : mp < g
    · simp only [if_pos h2]
      omega
    · simp only [if_neg h2]
      omega

theorem spanMaskInner_tokens_length (B : BertIds) (mp : Nat) :
    ∀ (w : List Nat) (ds : List MaskDecision) (tokens : List Nat) (masked : Nat),
      (spanMaskInner B mp w ds tokens masked).1.length = tokens.length
  | [], ds, tokens, masked => rfl
  | pos :: rest, ds, tokens, masked => by
      rw [spanMaskInner]
      by_cases he : masked + 1 = mp
      · rw [if_pos he]
        exact applyDecisionAt_length B tokens pos (ds.headD .keep)
      · rw [if_neg he]
        rw [spanMaskInner_tokens_length B mp rest, applyDecisionAt_length]

theorem spanMaskOuter_tokens_length (B : BertIds) (mp : Nat) :
    ∀ (ws : List (List Nat)) (ds : List MaskDecision) (tokens : List Nat)
      (masked : Nat), (spanMaskOuter B mp ws ds tokens masked).1.length = tokens.length
  | [], ds, tokens, masked => rfl
  | w :: ws, ds, tokens, masked => by
      rw [spanMaskOuter]
      by_cases he : (spanMaskInner B mp w ds tokens masked).2.2 = mp
      · rw [if_pos he]
        exact spanMaskInner_tokens_length B mp w ds tokens masked
      · rw [if_neg he]
        rw [spanMaskOuter_tokens_length B mp ws, spanMaskInner_tokens_length]

theorem oneSegMaskedCount_le (B : BertIds) (r : Rand1) (tokens_a : List Nat)
    (max_pos max_words_length : Nat) :
    oneSegMaskedCount B r tokens_a max_pos max_words_length ≤
      maskPrediction (oneSegTokensA B r tokens_a max_pos).length := by
  rw [oneSegMaskedCount]
  set tokens := oneSegTokensA B r tokens_a max_pos
  set mp := maskPrediction tokens.length
  set cand := mask_candidate_pos B tokens
  set ml := clampedMaskLength r.geoDraw max_words_length mp with hml
  by_cases h : 0 < ml
  · simp only [if_pos h]
    by_cases hs : cand.length / ml = 0
    · simp only [hs, if_pos rfl]
      exact Nat.zero_le _
    · simp only [if_neg hs]
      have hmp : 0 < mp := by
        have : ml ≤ mp := by
          rw [hml, clampedMaskLength_eq_min]
          omega
        omega
      exact spanMaskOuter_counter_le B mp _ r.decs tokens 0 hmp
  · simp only [if_neg h]
    exact Nat.zero_le _

theorem maskPrediction_add_two_le (k : Nat) : maskPrediction (k + 2) ≤ k := by
  rw [maskPrediction]
  split
  · omega
  · split
    · omega
    · split <;> omega

theorem enumFrom_filter_snd_length (q : Nat → Bool) :
    ∀ (n : Nat) (l : List Nat),
      ((List.enumFrom n l).filter fun p => q p.2).length = (l.filter q).length
  | _, [] => rfl
  | n, x :: xs => by
      rw [List.enumFrom_cons]
      rw [List.filter_cons, List.filter_cons]
      by_cases hq : q x
      · simp only [hq, if_pos]
        simp [enumFrom_filter_snd_length q (n + 1) xs]
      · simp only [hq]
        simp [enumFrom_filter_snd_length q (n + 1) xs, hq]

theorem mask_candidate_pos_length (B : BertIds) (tokens : List Nat) :
    (mask_candidate_pos B tokens).length =
      (tokens.filter fun tk => (tk != B.cls) && (tk != B.sep)).length := by
  rw [mask_candidate_pos, List.length_map]
  exact enumFrom_filter_snd_length (fun tk => (tk != B.cls) && (tk != B.sep)) 0 tokens

theorem oneSegTokensA_length (B : BertIds) (r : Rand1) (a : List Nat)
    (max_pos : Nat) :
    (oneSegTokensA B r a max_pos).length =
      (truncate_seq_pair a [] (effTarget1 r max_pos)).1.length + 2 := by
  rw [oneSegTokensA]
  simp only [List.length_append, List.length_cons, List.length_nil]

theorem oneSegTokensA_length_le (B : BertIds) (r : Rand1) (a : List Nat)
    (max_pos : Nat) (h : effTarget1 r max_pos + 2 ≤ max_pos) :
    (oneSegTokensA B r a max_pos).length ≤ max_pos := by
  have ht := truncate_seq_pair_le a [] (effTarget1 r max_pos)
  rw [oneSegTokensA_length]
  omega

theorem oneSeg_cand_length (B : BertIds) (r : Rand1) (a : List Nat) (max_pos : Nat)
    (hclean : ∀ x ∈ a, x ≠ B.cls ∧ x ≠ B.sep) :
    (mask_candidate_pos B (oneSegTokensA B r a max_pos)).length =
      (truncate_seq_pair a [] (effTarget1 r max_pos)).1.length := by
  rw [mask_candidate_pos_length, oneSegTokensA, truncate_seq_pair_nil_right]
  have hmid : ((a.take (effTarget1 r max_pos)).filter
      fun tk => (tk != B.cls) && (tk != B.sep)) = a.take (effTarget1 r max_pos) :=
    List.filter_eq_self.mpr fun x hx => by
      have hx' := hclean x (List.take_subset _ _ hx)
      simp [hx'.1, hx'.2]
  simp only [List.cons_append, List.filter_cons, List.filter_append, hmid]
  simp [truncate_seq_pair_nil_right]

theorem oneSegMaskedTokens_length (B : BertIds) (r : Rand1) (a : List Nat)
    (max_pos mwl : Nat) (t : List Nat)
    (ht : oneSegMaskedTokens B r a max_pos mwl = some t) :
    t.length = (oneSegTokensA B r a max_pos).length := by
  simp only [oneSegMaskedTokens] at ht
  by_cases h : 0 < clampedMaskLength r.geoDraw mwl
      (maskPrediction (oneSegTokensA B r a max_pos).length)
  · rw [if_pos h] at ht
    by_cases hs : (mask_candidate_pos B (oneSegTokensA B r a max_pos)).length /
        clampedMaskLength r.geoDraw mwl
          (maskPrediction (oneSegTokensA B r a max_pos).length) = 0
    · rw [if_pos hs] at ht
      exact Option.noConfusion ht
    · rw [if_neg hs] at ht
      have := Option.some.inj ht
      subst this
      rw [spanMaskOuter_tokens_length]
  · rw [if_neg h] at ht
    have := Option.some.inj ht
    subst this
    rfl

theorem convert_one_lengths (B : BertIds) (r : Rand1) (a : List Nat)
    (max_pos mwl : Nat) (h : effTarget1 r max_pos + 2 ≤ max_pos) :
    ∀ g, convert_example_to_features_one B r a max_pos mwl = some g →
      g.1.length = max_pos ∧ g.2.2.2.2.length = max_pos ∧
        g.2.1 = [] ∧ g.2.2.1 = [] := by
  intro g hg
  rw [convert_example_to_features_one, Option.map_eq_some'] at hg
  obtain ⟨t, ht, hft⟩ := hg
  have hlen := oneSegMaskedTokens_length B r a max_pos mwl t ht
  have hA := oneSegTokensA_length_le B r a max_pos h
  subst hft
  refine ⟨?_, ?_, rfl, rfl⟩ <;>
    simp only [List.length_append, List.length_replicate] <;> omega

theorem convert_lengths (B : BertIds) (r : Rand2) (a b : List Nat)
    (lbl max_pos : Nat) (h : effTarget2 r b max_pos + 3 ≤ max_pos) :
    (convert_example_to_features B r a b lbl max_pos).1.length = max_pos ∧
    (convert_example_to_features B r a b lbl max_pos).2.1.length = max_pos ∧
    (convert_example_to_features B r a b lbl max_pos).2.2.1.length = max_pos ∧
    (convert_example_to_features B r a b lbl max_pos).2.2.2.2.length = max_pos := by
  have hn := twoSegTokens_length_le B r a b max_pos h
  have hm := applyDecisions_length B (twoSegSelected B r a b max_pos)
      (twoSegA B r a b max_pos ++ twoSegB B r a b max_pos) r.decs
  rw [twoSegTokens] at hn
  simp only [List.length_append] at hn hm
  simp only [convert_example_to_features, List.length_append, List.length_replicate, hm]
  omega

theorem dedupFirstGo_mem :
    ∀ (fuel : Nat) (l : List Nat), l.length ≤ fuel →
      ∀ y, y ∈ dedupFirstGo fuel l ↔ y ∈ l
  | 0, l, h, y => by
      have hl : l = [] := List.length_eq_zero.mp (by omega)
      subst hl
      rw [dedupFirstGo]
  | fuel + 1, [], _, y => by
      rw [dedupFirstGo]
  | fuel + 1, x :: xs, h, y => by
      rw [dedupFirstGo]
      have hf : (xs.filter fun z => z != x).length ≤ fuel :=
        le_trans (List.length_filter_le _ xs)
          (by simp only [List.length_cons] at h; omega)
      simp only [List.mem_cons, dedupFirstGo_mem fuel _ hf y, List.mem_filter,
        bne_iff_ne]
      by_cases hyx : y = x
      · simp [hyx]
      · simp [hyx]

theorem dedupFirstGo_nodup :
    ∀ (fuel : Nat) (l : List Nat), l.length ≤ fuel → (dedupFirstGo fuel l).Nodup
  | 0, l, _ => by
      rw [dedupFirstGo]
      exact List.nodup_nil
  | fuel + 1, [], _ => by
      rw [dedupFirstGo]
      exact List.nodup_nil
  | fuel + 1, x :: xs, h => by
      rw [dedupFirstGo]
      have hf : (xs.filter fun z => z != x).length ≤ fuel :=
        le_trans (List.length_filter_le _ xs)
          (by simp only [List.length_cons] at h; omega)
      refine List.nodup_cons.mpr ⟨?_, dedupFirstGo_nodup fuel _ hf⟩
      intro hx
      rw [dedupFirstGo_mem fuel _ hf x] at hx
      have := (List.mem_filter.mp hx).2
      simp at this

theorem dedupFirstGo_append_left :
    ∀ (fuel : Nat) (last fresh : List Nat),
      last.length + fresh.length ≤ fuel → last.Nodup →
      ∃ t, dedupFirstGo fuel (last ++ fresh) = last ++ t
  | fuel, [], fresh, _, _ => ⟨dedupFirstGo fuel fresh, by simp⟩
  | 0, x :: rest, _, h, _ => by
      exfalso
      simp only [List.length_cons] at h
      omega
  | fuel + 1, x :: rest, fresh, hlen, hnd => by
      rw [List.cons_append, dedupFirstGo]
      have hx : x ∉ rest := (List.nodup_cons.mp hnd).1
      have hrest : rest.filter (fun z => z != x) = rest :=
        List.filter_eq_self.mpr fun z hz => by
          have hzx : z ≠ x := fun hzx => hx (hzx ▸ hz)
          simp [hzx]
      rw [List.filter_append, hrest]
      obtain ⟨t, ht⟩ := dedupFirstGo_append_left fuel rest
        (fresh.filter fun z => z != x)
        (by
          have := List.length_filter_le (fun z => z != x) fresh
          simp only [List.length_cons] at hlen
          omega)
        (List.nodup_cons.mp hnd).2
      exact ⟨t, by rw [ht, List.cons_append]⟩

theorem dedupFirst_mem (l : List Nat) (y : Nat) : y ∈ dedupFirst l ↔ y ∈ l :=
  dedupFirstGo_mem l.length l (Nat.le_refl _) y

theorem dedupFirst_nodup (l : List Nat) : (dedupFirst l).Nodup :=
  dedupFirstGo_nodup l.length l (Nat.le_refl _)

theorem dedupFirst_append_left (last fresh : List Nat) (h : last.Nodup) :
    ∃ t, dedupFirst (last ++ fresh) = last ++ t :=
  dedupFirstGo_append_left (last ++ fresh).length last fresh (by simp) h

theorem load_text_invariant (st : LoadState) (line : Line)
    (h1 : st.sample_to_doc.length + st.all_documents.length = st.corpus_lines)
    (h2 : st.doc.length ≤ st.sample_to_doc.length) :
    ((load_text st line).sample_to_doc.length +
        (load_text st line).all_documents.length =
      (load_text st line).corpus_lines) ∧
    (load_text st line).doc.length ≤ (load_text st line).sample_to_doc.length := by
  cases line with
  | none =>
      simp only [load_text]
      by_cases hd : st.doc ≠ []
      · rw [if_pos hd]
        have hpos : 0 < st.doc.length := List.length_pos.mpr hd
        simp only [List.length_dropLast, List.length_append, List.length_cons,
          List.length_nil]
        omega
      · rw [if_neg hd]
        exact ⟨h1, h2⟩
  | some ts =>
      simp only [load_text, List.length_append, List.length_cons, List.length_nil]
      omega

theorem loadAll_invariant_aux :
    ∀ (lines : List Line) (st : LoadState),
      (st.sample_to_doc.length + st.all_documents.length = st.corpus_lines ∧
        st.doc.length ≤ st.sample_to_doc.length) →
      ((lines.foldl load_text st).sample_to_doc.length +
          (lines.foldl load_text st).all_documents.length =
        (lines.foldl load_text st).corpus_lines ∧
        (lines.foldl load_text st).doc.length ≤
          (lines.foldl load_text st).sample_to_doc.length)
  | [], _, h => h
  | line :: rest, st, h => by
      rw [List.foldl_cons]
      exact loadAll_invariant_aux rest (load_text st line)
        (load_text_invariant st line h.1 h.2)

theorem eofFix_invariant (st : LoadState)
    (h1 : st.sample_to_doc.length + st.all_documents.length = st.corpus_lines)
    (h2 : st.doc.length ≤ st.sample_to_doc.length) :
    (eofFix st).sample_to_doc.length + (eofFix st).all_documents.length =
      (eofFix st).corpus_lines := by
  rw [eofFix]
  by_cases hd : st.doc ≠ []
  · rw [if_pos hd]
    have hpos : 0 < st.doc.length := List.length_pos.mpr hd
    simp only [List.length_dropLast, List.length_append, List.length_cons,
      List.length_nil]
    omega
  · rw [if_neg hd]
    exact h1

theorem loadDataset_sample_count (lines : List Line) :
    (loadDataset lines).sample_to_doc.length + numDocs (loadDataset lines) =
      (loadDataset lines).corpus_lines := by
  have hinv := loadAll_invariant_aux lines initLoadState
    (by exact ⟨rfl, Nat.le_refl 0⟩)
  exact eofFix_invariant (loadAll lines) hinv.1 hinv.2

end Mptb

/-- C3: `truncate_seq_pair(a, b, L)` terminates for every `L ≥ 0` (it is
a total function of fuel `len(a) + len(b)`, which the lemmas show always
suffices), on return `len(a) + len(b) ≤ L`, and it leaves both lists
unchanged when `len(a) + len(b) ≤ L` already holds at entry. -/
theorem C3_truncate_terminates_bounded_noop (a b : List Nat) (L : Nat) :
    ((Mptb.truncate_seq_pair a b L).1.length +
       (Mptb.truncate_seq_pair a b L).2.length ≤ L) ∧
    (a.length + b.length ≤ L → Mptb.truncate_seq_pair a b L = (a, b)) :=
  ⟨Mptb.truncate_seq_pair_le a b L, Mptb.truncate_seq_pair_noop a b L⟩

/-- C3 witness: a concrete instance with the no-op hypothesis discharged. -/
theorem C3_truncate_terminates_bounded_noop_witness :
    ((Mptb.truncate_seq_pair [1, 2, 3] [4, 5] 9).1.length +
       (Mptb.truncate_seq_pair [1, 2, 3] [4, 5] 9).2.length ≤ 9) ∧
    Mptb.truncate_seq_pair [1, 2, 3] [4, 5] 9 = ([1, 2, 3], [4, 5]) :=
  ⟨(C3_truncate_terminates_bounded_noop [1, 2, 3] [4, 5] 9).1,
   (C3_truncate_terminates_bounded_noop [1, 2, 3] [4, 5] 9).2 (by decide)⟩

open Mptb

/-- C1 counterexample: the claim is false for `OneSegmentDataset`.  Its
`convert_example_to_features` returns `[input_ids, [], [], [], label_ids]`,
so with `max_position = 8` the returned `segment_ids` (second component)
has length 0, not 8. -/
theorem C1_counterexample :
    (convert_example_to_features_one Bex r1ex [5] 8 10).map
      (fun g => g.2.1.length) = some 0 ∧ (0 : Nat) ≠ 8 := by
  constructor
  · decide
  · decide

/-- C1 (amended): in `PretrainDataset.convert_example_to_features` all
four arrays `input_ids`, `segment_ids`, `input_mask`, `label_ids` have
length exactly `max_position` (given a truncation target that leaves
room for the three special tokens, as a non-empty `tokens_b` yields);
in `OneSegmentDataset.convert_example_to_features` only `input_ids` and
`label_ids` have length `max_position`, while the returned `segment_ids`
and `input_mask` are empty lists. -/
theorem C1_feature_lengths_amended (B : BertIds) (r2 : Rand2) (r1 : Rand1)
    (a b a1 : List Nat) (lbl max2 max1 mwl : Nat)
    (h2 : effTarget2 r2 b max2 + 3 ≤ max2)
    (h1 : effTarget1 r1 max1 + 2 ≤ max1) :
    ((convert_example_to_features B r2 a b lbl max2).1.length = max2 ∧
     (convert_example_to_features B r2 a b lbl max2).2.1.length = max2 ∧
     (convert_example_to_features B r2 a b lbl max2).2.2.1.length = max2 ∧
     (convert_example_to_features B r2 a b lbl max2).2.2.2.2.length = max2) ∧
    (∀ g, convert_example_to_features_one B r1 a1 max1 mwl = some g →
      g.1.length = max1 ∧ g.2.2.2.2.length = max1 ∧
        g.2.1 = [] ∧ g.2.2.1 = []) :=
  ⟨convert_lengths B r2 a b lbl max2 h2, convert_one_lengths B r1 a1 max1 mwl h1⟩

/-- C1 witness: both parts instantiated at concrete inputs with every
hypothesis discharged. -/
theorem C1_feature_lengths_amended_witness :
    ((convert_example_to_features Bex r2ex [5] [6] 1 8).1.length = 8 ∧
     (convert_example_to_features Bex r2ex [5] [6] 1 8).2.1.length = 8 ∧
     (convert_example_to_features Bex r2ex [5] [6] 1 8).2.2.1.length = 8 ∧
     (convert_example_to_features Bex r2ex [5] [6] 1 8).2.2.2.2.length = 8) ∧
    (([1, 5, 2, 0, 0, 0, 0, 0] : List Nat).length = 8 ∧
     ([1, 5, 2, 0, 0, 0, 0, 0] : List Nat).length = 8 ∧
     ([] : List Nat) = [] ∧ ([] : List Nat) = []) :=
  ⟨(C1_feature_lengths_amended Bex r2ex r1ex [5] [6] [5] 1 8 8 10
      (by decide) (by decide)).1,
   (C1_feature_lengths_amended Bex r2ex r1ex [5] [6] [5] 1 8 8 10
      (by decide) (by decide)).2
     ([1, 5, 2, 0, 0, 0, 0, 0], [], [], [], [1, 5, 2, 0, 0, 0, 0, 0])
     (by decide)⟩

/-- C2 counterexample: with `a = [5]`, `b = [6]`, `max_pos = 7` (ids
PAD = 0, CLS = 1, SEP = 2, no masking), the claim predicts
`label_ids = [CLS] ++ a ++ b ++ [SEP]` padded, i.e. `[1, 5, 6, 2, 0, 0, 0]`,
and `segment_ids = 0^2 ++ 1^2` padded, i.e. `[0, 0, 1, 1, 0, 0, 0]`; the
code produces `[1, 5, 6, 2, 2, 0, 0]` and `[0, 0, 1, 1, 1, 0, 0]`
instead (two SEPs appended to `b`). -/
theorem C2_counterexample :
    (convert_example_to_features Bex r2ex [5] [6] 1 7).2.2.2.2 ≠
      [1, 5, 6, 2, 0, 0, 0] ∧
    (convert_example_to_features Bex r2ex [5] [6] 1 7).2.1 ≠
      [0, 0, 1, 1, 0, 0, 0] := by
  constructor
  · decide
  · decide

/-- C2 (amended): in two-segment mode with a non-empty second segment,
`convert_example_to_features` inserts CLS at the front of `a` and appends
exactly TWO SEPs at the end of `b` (and nothing to `a`) — the guard
`if len(tokens_b_ids) != 0` runs after the first SEP was already
appended, so it always appends a second one — producing
`tokens = [CLS] ++ a ++ b ++ [SEP, SEP]` and
`segment_ids = 0^(|a|+1) ++ 1^(|b|+2)` (then right-padded), where `a`,
`b` are the post-truncation segments. -/
theorem C2_special_tokens_amended (B : BertIds) (r : Rand2) (a b : List Nat)
    (lbl max_pos : Nat) (hb : b ≠ []) :
    (convert_example_to_features B r a b lbl max_pos).2.2.2.2 =
      (B.cls :: ((truncate_seq_pair a b (effTarget2 r b max_pos)).1 ++
        ((truncate_seq_pair a b (effTarget2 r b max_pos)).2 ++ [B.sep, B.sep]))) ++
      List.replicate (max_pos -
        ((truncate_seq_pair a b (effTarget2 r b max_pos)).1.length +
         (truncate_seq_pair a b (effTarget2 r b max_pos)).2.length + 3)) B.pad ∧
    (convert_example_to_features B r a b lbl max_pos).2.1 =
      (List.replicate ((truncate_seq_pair a b (effTarget2 r b max_pos)).1.length + 1) 0 ++
       List.replicate ((truncate_seq_pair a b (effTarget2 r b max_pos)).2.length + 2) 1) ++
      List.replicate (max_pos -
        ((truncate_seq_pair a b (effTarget2 r b max_pos)).1.length +
         (truncate_seq_pair a b (effTarget2 r b max_pos)).2.length + 3)) 0 := by
  have hm := applyDecisions_length B (twoSegSelected B r a b max_pos)
      (twoSegA B r a b max_pos ++ twoSegB B r a b max_pos) r.decs
  have hlen : (twoSegA B r a b max_pos ++ twoSegB B r a b max_pos).length =
      (truncate_seq_pair a b (effTarget2 r b max_pos)).1.length +
      (truncate_seq_pair a b (effTarget2 r b max_pos)).2.length + 3 := by
    simp only [List.length_append, twoSegA_length, twoSegB_length]
    omega
  constructor
  · simp only [convert_example_to_features, hm, hlen]
    rw [twoSegA, twoSegB_eq]
    simp [List.cons_append, List.append_assoc]
  · simp only [convert_example_to_features, hm, hlen, twoSegA_length, twoSegB_length]

/-- C2 witness: the amended characterization at a concrete input. -/
theorem C2_special_tokens_amended_witness :
    (convert_example_to_features Bex r2ex [5] [6] 1 7).2.2.2.2 =
      (Bex.cls :: ((truncate_seq_pair [5] [6] (effTarget2 r2ex [6] 7)).1 ++
        ((truncate_seq_pair [5] [6] (effTarget2 r2ex [6] 7)).2 ++ [Bex.sep, Bex.sep]))) ++
      List.replicate (7 -
        ((truncate_seq_pair [5] [6] (effTarget2 r2ex [6] 7)).1.length +
         (truncate_seq_pair [5] [6] (effTarget2 r2ex [6] 7)).2.length + 3)) Bex.pad ∧
    (convert_example_to_features Bex r2ex [5] [6] 1 7).2.1 =
      (List.replicate ((truncate_seq_pair [5] [6] (effTarget2 r2ex [6] 7)).1.length + 1) 0 ++
       List.replicate ((truncate_seq_pair [5] [6] (effTarget2 r2ex [6] 7)).2.length + 2) 1) ++
      List.replicate (7 -
        ((truncate_seq_pair [5] [6] (effTarget2 r2ex [6] 7)).1.length +
         (truncate_seq_pair [5] [6] (effTarget2 r2ex [6] 7)).2.length + 3)) 0 :=
  C2_special_tokens_amended Bex r2ex [5] [6] 1 7 (by decide)

/-- C4: in both masking policies the number of token positions selected
for possible substitution is at most
`mask_prediction = int(round(0.15 * len(tokens)))`, where `tokens` is
the post-truncation sequence including CLS/SEP: the per-token policy
takes the slice `mask_candidate_pos[:mask_prediction]` of the shuffled
candidates, and the span policy's `masked` counter stops at
`mask_prediction`. -/
theorem C4_mask_selection_bound (B : BertIds) (r2 : Rand2) (r1 : Rand1)
    (a b a1 : List Nat) (max2 max1 mwl : Nat) :
    (twoSegSelected B r2 a b max2).length ≤
      maskPrediction (twoSegTokens B r2 a b max2).length ∧
    oneSegMaskedCount B r1 a1 max1 mwl ≤
      maskPrediction (oneSegTokensA B r1 a1 max1).length := by
  constructor
  · rw [twoSegSelected, List.length_take]
    exact min_le_left _ _
  · exact oneSegMaskedCount_le B r1 a1 max1 mwl

/-- C5 counterexample: when `tokens_a` consists of 18 copies of the SEP
id (with `max_pos = 30`, geometric draw 5), the clamped span length is
3 > 0 while the candidate count is 0, so the clamped length exceeds the
candidate count, `int(len(mask_candidate_pos)/mask_length) = 0`, and the
degenerate zero-section `np.array_split` IS reached (modelled as `none`,
the raised `ValueError`). -/
theorem C5_counterexample :
    0 < clampedMaskLength r1geo5.geoDraw 10
      (maskPrediction (oneSegTokensA Bex r1geo5 (List.replicate 18 2) 30).length) ∧
    (mask_candidate_pos Bex (oneSegTokensA Bex r1geo5 (List.replicate 18 2) 30)).length <
      clampedMaskLength r1geo5.geoDraw 10
        (maskPrediction (oneSegTokensA Bex r1geo5 (List.replicate 18 2) 30).length) ∧
    convert_example_to_features_one Bex r1geo5 (List.replicate 18 2) 30 10 = none := by
  refine ⟨by decide, by decide, by decide⟩

/-- C5 (amended): the geometric span length is always clamped to at most
`max_words_length` and at most `mask_count`; and PROVIDED `tokens_a`
contains no CLS/SEP ids (as tokenized ordinary text does), a positive
clamped length never exceeds the number of non-CLS/SEP candidate
positions, so the section count `int(len(mask_candidate_pos)/mask_length)`
is at least 1 and the zero-section split is unreachable.  (When
`tokens_a` itself holds CLS/SEP ids the split can degenerate, as the
counterexample shows.) -/
theorem C5_span_clamp_amended (B : BertIds) (r : Rand1) (a : List Nat)
    (max_pos mwl : Nat) (hclean : ∀ x ∈ a, x ≠ B.cls ∧ x ≠ B.sep) :
    clampedMaskLength r.geoDraw mwl
      (maskPrediction (oneSegTokensA B r a max_pos).length) ≤ mwl ∧
    clampedMaskLength r.geoDraw mwl
      (maskPrediction (oneSegTokensA B r a max_pos).length) ≤
      maskPrediction (oneSegTokensA B r a max_pos).length ∧
    (0 < clampedMaskLength r.geoDraw mwl
        (maskPrediction (oneSegTokensA B r a max_pos).length) →
      clampedMaskLength r.geoDraw mwl
        (maskPrediction (oneSegTokensA B r a max_pos).length) ≤
        (mask_candidate_pos B (oneSegTokensA B r a max_pos)).length ∧
      1 ≤ (mask_candidate_pos B (oneSegTokensA B r a max_pos)).length /
        clampedMaskLength r.geoDraw mwl
          (maskPrediction (oneSegTokensA B r a max_pos).length)) := by
  have hmp : maskPrediction (oneSegTokensA B r a max_pos).length ≤
      (truncate_seq_pair a [] (effTarget1 r max_pos)).1.length := by
    rw [oneSegTokensA_length]
    exact maskPrediction_add_two_le _
  have hcand := oneSeg_cand_length B r a max_pos hclean
  have hmin := clampedMaskLength_eq_min r.geoDraw mwl
    (maskPrediction (oneSegTokensA B r a max_pos).length)
  refine ⟨by omega, by omega, fun hpos => ⟨by omega, ?_⟩⟩
  rw [Nat.one_le_div_iff hpos]
  omega

/-- C5 witness: clean input `tokens_a = [5, 6, 7, 8]` (no CLS/SEP ids),
`max_pos = 12`, geometric draw 1: the clamped length is 1, positive, and
the candidate count 4 gives 4 sections. -/
theorem C5_span_clamp_amended_witness :
    clampedMaskLength r1ex.geoDraw 10
      (maskPrediction (oneSegTokensA Bex r1ex [5, 6, 7, 8] 12).length) ≤ 10 ∧
    clampedMaskLength r1ex.geoDraw 10
      (maskPrediction (oneSegTokensA Bex r1ex [5, 6, 7, 8] 12).length) ≤
      maskPrediction (oneSegTokensA Bex r1ex [5, 6, 7, 8] 12).length ∧
    (0 < clampedMaskLength r1ex.geoDraw 10
        (maskPrediction (oneSegTokensA Bex r1ex [5, 6, 7, 8] 12).length) →
      clampedMaskLength r1ex.geoDraw 10
        (maskPrediction (oneSegTokensA Bex r1ex [5, 6, 7, 8] 12).length) ≤
        (mask_candidate_pos Bex (oneSegTokensA Bex r1ex [5, 6, 7, 8] 12)).length ∧
      1 ≤ (mask_candidate_pos Bex (oneSegTokensA Bex r1ex [5, 6, 7, 8] 12)).length /
        clampedMaskLength r1ex.geoDraw 10
          (maskPrediction (oneSegTokensA Bex r1ex [5, 6, 7, 8] 12).length)) :=
  C5_span_clamp_amended Bex r1ex [5, 6, 7, 8] 12 10 (by decide)

/-- C6: code bug.  In the in-memory branch of `get_random_line`,
`current_random_doc` is never updated (only the lazy branch's
`get_next_line` touches it), so the acceptance check compares a stale
constant with `current_doc` instead of the drawn document id.  Evaluated
at the failing input: corpus of two one-sentence documents `[10]` (doc 0)
and `[20]` (doc 1), draw sequence `(1,0), (0,0), ..., (0,0)`.  With
`current_doc = 0` the first draw comes from document 1 — the claim says
it is accepted immediately — yet the code keeps drawing and returns
`[10]` from document 0.  With `current_doc = 1` the code accepts the
very first draw (`[20]`, document 1) even though it comes from the same
document as the current sample. -/
theorem C6_random_line_stale_doc_check :
    get_random_line [[[10]], [[20]]] 0 0 ((1, 0) :: List.replicate 9 (0, 0)) [] =
      [10] ∧
    get_random_line [[[10]], [[20]]] 1 0 ((1, 0) :: List.replicate 9 (0, 0)) [] =
      [20] := by
  constructor
  · decide
  · decide

/-- C7 counterexample: the claim quantifies over every persisted suffix
whose elements lie in `[0, N)`; for the duplicated suffix `[0, 0]` with
`N = 1` the reloaded order is `[0]`, which does not begin with `[0, 0]`
(duplicate removal shortens the suffix itself), although it is still a
permutation of `range 1`. -/
theorem C7_counterexample :
    (∀ x ∈ ([0, 0] : List Nat), x < 1) ∧
    ([0] : List Nat).Perm (List.range 1) ∧
    ¬ ∃ t, reloadIndices [0, 0] [0] = [0, 0] ++ t := by
  refine ⟨by decide, by decide, ?_⟩
  rintro ⟨t, ht⟩
  rw [show reloadIndices [0, 0] [0] = [0] from by decide] at ht
  simp at ht

/-- C7 (amended): on reload the new order is
`dedup_first(persisted_suffix ++ fresh_shuffle)`.  For every persisted
suffix whose elements lie in `[0, N)`, the result is a permutation of
`{0, ..., N-1}` (no element dropped); and provided the suffix has no
duplicate entries — as every suffix persisted by `dump_last_indices`
does, being a suffix of a duplicate-free order — the result begins with
the previously unconsumed suffix. -/
theorem C7_reload_amended (last fresh : List Nat) (N : Nat)
    (hfresh : fresh.Perm (List.range N)) (hlast : ∀ x ∈ last, x < N) :
    (reloadIndices last fresh).Perm (List.range N) ∧
    (last.Nodup → ∃ t, reloadIndices last fresh = last ++ t) := by
  constructor
  · rw [reloadIndices]
    rw [List.perm_ext_iff_of_nodup (dedupFirst_nodup _) (List.nodup_range N)]
    intro y
    rw [dedupFirst_mem, List.mem_append, List.mem_range]
    constructor
    · rintro (hy | hy)
      · exact hlast y hy
      · have hmem := hfresh.mem_iff.mp hy
        rwa [List.mem_range] at hmem
    · intro hy
      right
      exact hfresh.mem_iff.mpr (List.mem_range.mpr hy)
  · intro hnd
    rw [reloadIndices]
    exact dedupFirst_append_left last fresh hnd

/-- C7 witness: suffix `[1]`, fresh shuffle `[1, 0]` of `range 2`: the
reloaded order `[1, 0]` is a permutation of `range 2` beginning with the
suffix. -/
theorem C7_reload_amended_witness :
    (reloadIndices [1] [1, 0]).Perm (List.range 2) ∧
    ∃ t, reloadIndices [1] [1, 0] = [1] ++ t :=
  ⟨(C7_reload_amended [1] [1, 0] 2 (by decide) (by decide)).1,
   (C7_reload_amended [1] [1, 0] 2 (by decide) (by decide)).2 (by decide)⟩

/-- C8 counterexample: load the corpus "1 / 2 / blank / 3 / 4" (two
documents of two sentences).  Then `len(Corpus) = corpus_lines - num_docs
- 1 = 4 - 2 - 1 = 1`, yet the ordinal 1 — outside `[0, 1)` — passes the
guard `assert item < corpus_lines` and is silently served the sentence
pair `([3], [4])` instead of failing. -/
theorem C8_counterexample :
    datasetLen (loadDataset [some [1], some [2], none, some [3], some [4]]) = 1 ∧
    get_corpus_line (loadDataset [some [1], some [2], none, some [3], some [4]]) 1 =
      CorpusLineResult.ok [3] [4] := by
  constructor
  · decide
  · decide

/-- C8 (amended): `get_corpus_line` fails only from ordinal
`len(sample_to_doc) = corpus_lines - num_docs = len(Corpus) + 1` upward:
ordinals in `[corpus_lines - num_docs, corpus_lines)` hit an
`IndexError` in `sample_to_doc[item]` and ordinals `>= corpus_lines`
fail the `assert item < corpus_lines`; the ordinal `len(Corpus)` itself
is silently served.  The second conjunct identifies the failing region:
`len(sample_to_doc) + num_docs = corpus_lines` for every loaded corpus. -/
theorem C8_corpus_line_bounds_amended (lines : List Line) (item : Nat)
    (h : (loadDataset lines).sample_to_doc.length ≤ item) :
    get_corpus_line (loadDataset lines) item =
      (if item < (loadDataset lines).corpus_lines then CorpusLineResult.indexError
       else CorpusLineResult.assertError) ∧
    (loadDataset lines).sample_to_doc.length + numDocs (loadDataset lines) =
      (loadDataset lines).corpus_lines := by
  refine ⟨?_, loadDataset_sample_count lines⟩
  rw [get_corpus_line]
  by_cases hc : item < (loadDataset lines).corpus_lines
  · rw [if_pos hc, if_pos hc]
    have hnone : (loadDataset lines).sample_to_doc.get? item = none :=
      List.get?_eq_none.mpr h
    rw [hnone]
  · rw [if_neg hc, if_neg hc]

/-- C8 witness: the corpus consisting of the single line "1" has an
empty `sample_to_doc`, and ordinal 1 (not below `corpus_lines = 1`)
fails with the assert. -/
theorem C8_corpus_line_bounds_amended_witness :
    get_corpus_line (loadDataset [some [1]]) 1 =
      (if 1 < (loadDataset [some [1]]).corpus_lines then CorpusLineResult.indexError
       else CorpusLineResult.assertError) ∧
    (loadDataset [some [1]]).sample_to_doc.length + numDocs (loadDataset [some [1]]) =
      (loadDataset [some [1]]).corpus_lines :=
  C8_corpus_line_bounds_amended [some [1]] 1 (by decide)

/-- C9 counterexample: a corpus consisting of one single-line document
has one Document but zero usable samples; construction succeeds (no
`ValueError`), `sample_to_doc` is empty, and `__len__` would be `-1` —
refuting the claim that zero usable samples raise a fatal construction
error. -/
theorem C9_counterexample :
    (pretrainInit [some [1]]).isSome = true ∧
    (pretrainInit [some [1]]).map (fun st => st.sample_to_doc.length) = some 0 ∧
    datasetLen (loadDataset [some [1]]) = -1 := by
  refine ⟨by decide, by decide, by decide⟩

/-- C9 (amended): construction raises the fatal `ValueError` exactly
when the corpus contains zero Documents (`len(all_documents) is 0`); a
corpus with at least one Document but zero usable samples is accepted
silently. -/
theorem C9_empty_corpus_amended (lines : List Line) :
    pretrainInit lines = none ↔ numDocs (loadDataset lines) = 0 := by
  simp only [pretrainInit]
  by_cases h : numDocs (loadDataset lines) = 0
  · simp [h]
  · simp [h]

/-- C10: a `PreTensorPretrainDataset` constructed with length `L ≥ 0`
and `last_step = k > 0` over a cache file of `L` records consumes
exactly `k` records during construction, yet `__len__` still returns
`L` unchanged (the expression `self.length - last_step` is evaluated and
discarded), so only `L - k` records remain readable before end of
file. -/
theorem C10_pretensor_skip_keeps_length {α : Type} (records : List α) (L k : Int)
    (hL : 0 ≤ L) (hk : 0 < k) (hrec : (records.length : Int) = L) (hkL : k ≤ L) :
    preTensorInit records L k = some (records.drop k.toNat, L) ∧
    preTensorLen (records.drop k.toNat, L) = L ∧
    ((records.drop k.toNat).length : Int) = L - k := by
  have hkn : k.toNat ≤ records.length := by omega
  refine ⟨?_, rfl, ?_⟩
  · rw [preTensorInit, if_neg (by omega), if_pos hk, if_pos hkn]
  · rw [List.length_drop]
    omega

/-- C10 witness: three records, `L = 3`, `last_step = 1`: one record is
skipped, the declared length stays 3, and two records remain. -/
theorem C10_pretensor_skip_keeps_length_witness :
    preTensorInit ([10, 20, 30] : List Nat) 3 1 =
      some (([10, 20, 30] : List Nat).drop (1 : Int).toNat, 3) ∧
    preTensorLen (([10, 20, 30] : List Nat).drop (1 : Int).toNat, (3 : Int)) = 3 ∧
    ((([10, 20, 30] : List Nat).drop (1 : Int).toNat).length : Int) = 3 - 1 :=
  C10_pretensor_skip_keeps_length [10, 20, 30] 3 1 (by decide) (by decide)
    (by decide) (by decide)
